import Mathlib

/-!
Shallow embedding of `torch/_dynamo/repro/after_aot.py` (the after-AOT repro
capture, serialization and divergence-analysis pipeline), together with proofs
of the specified properties.

Conventions of the embedding:
* machine values are `Nat`/`Int`/`Rat`; byte buffers are `List Nat`;
* Python exceptions become `Option`/`Except` results; what a function logs via
  `log.warning`/`log.error`/`pbar.write`/`print` is returned as a `List String`;
* functions of this repository that live outside the provided source (the
  content store, `rand_strided`, `same`, `compute_tensor_metadata`) are
  modelled from the spec; their doc comments say so explicitly.
-/

namespace AfterAot

/-- Device tags (`torch.device`) as they occur in repro scripts: the generic
host device, an indexed accelerator device, and the placeholder meta device. -/
inductive Device where
  | cpu
  | cuda (index : Nat)
  | meta
deriving DecidableEq

/-- The element types (`torch.dtype`) the embedding needs. -/
inductive DType where
  | float32
  | float64
  | float16
  | int64
  | int32
  | uint8
deriving DecidableEq

/-- `torch.dtype.itemsize`: bytes per element. -/
def DType.itemsize : DType → Nat
  | .float32 => 4
  | .float64 => 8
  | .float16 => 2
  | .int64 => 8
  | .int32 => 4
  | .uint8 => 1

/-- An untyped storage (`torch.UntypedStorage`): a raw byte buffer living on a
device.  `sid` models the allocation identity that `StorageWeakRef` keys on:
two views of one live storage carry the same `sid`. -/
structure UntypedStorage where
  sid : Nat
  data : List Nat
  device : Device
deriving DecidableEq

/-- `UntypedStorage.nbytes()`. -/
def UntypedStorage.nbytes (s : UntypedStorage) : Nat := s.data.length

/-- A tensor: a typed view over an untyped storage, plus the free-form
auxiliary metadata carried by `torch._utils.get_tensor_metadata`. -/
structure Tensor where
  storage : UntypedStorage
  shape : List Nat
  stride : List Nat
  storage_offset : Nat
  dtype : DType
  metadata : List String
deriving DecidableEq

/-- `tensor.device` coincides with the device of its storage. -/
def Tensor.device (t : Tensor) : Device := t.storage.device

/-- Helper for `make_contiguous_strides_for`: walking the shape from the left,
returns the running multiplier for everything to the right together with the
strides of the remaining dimensions (zero-sized dimensions count as one, as in
the source's `multiplier *= l if l != 0 else 1`). -/
def contigAux : List Nat → Nat × List Nat
  | [] => (1, [])
  | l :: rest =>
    let p := contigAux rest
    (p.1 * (if l = 0 then 1 else l), p.1 :: p.2)

/-- `torch._prims_common.make_contiguous_strides_for`: the canonical row-major
contiguous strides for a shape (empty shape gives the empty stride tuple). -/
def make_contiguous_strides_for (shape : List Nat) : List Nat :=
  (contigAux shape).2

/-- `_stride_or_default` (after_aot.py line 202). -/
def _stride_or_default (stride : Option (List Nat)) (shape : List Nat) : List Nat :=
  match stride with
  | some s => s
  | none => make_contiguous_strides_for shape

/-- `_dtype_or_default` (after_aot.py line 208). -/
def _dtype_or_default (dtype : Option DType) : DType :=
  match dtype with
  | some d => d
  | none => .float32

/-- `_device_or_default` (after_aot.py line 212). -/
def _device_or_default (device : Option Device) : Device :=
  match device with
  | some d => d
  | none => .cpu

/-- `_storage_offset_or_default` (after_aot.py line 216). -/
def _storage_offset_or_default (storage_offset : Option Nat) : Nat :=
  match storage_offset with
  | some s => s
  | none => 0

/-- Content hashes of the content-addressed store.  Modelled from the spec:
the store is keyed by content, so the hash is modelled as the byte content
itself (a collision-free content hash). -/
abbrev Hash := List Nat

/-- Modelled from the spec: the content-addressed BufferStore
(`torch.utils._content_store`, not under src/), a key-to-storage map. -/
abbrev ContentStore := List (Hash × UntypedStorage)

/-- Modelled from the spec: `ContentStoreReader.read_storage` lookup — reads
fetch by hash, absent keys fail distinguishably (here: `none`). -/
def storeLookup : ContentStore → Hash → Option UntypedStorage
  | [], _ => none
  | (k, v) :: rest, h => if k = h then some v else storeLookup rest h

/-- Modelled from the spec: `ContentStoreWriter.write_storage` — writes return
a stable content hash; a hash already present is not re-written (the store is
keyed by content). -/
def write_storage (cs : ContentStore) (s : UntypedStorage) : Hash × ContentStore :=
  match storeLookup cs s.data with
  | some _ => (s.data, cs)
  | none => (s.data, (s.data, s) :: cs)

/-- Printable form of a device, for log messages. -/
def deviceStr : Device → String
  | .cpu => "cpu"
  | .cuda i => "cuda:" ++ toString i
  | .meta => "meta"

/-- Modelled from the spec: one byte of the deterministically-seeded
pseudo-random data used when real content is unavailable. -/
def randByte (i : Nat) : Nat := (i * 37 + 11) % 256

/-- Modelled from the spec: `n` bytes of deterministic pseudo-random data. -/
def randBytes (n : Nat) : List Nat := (List.range n).map randByte

/-- Modelled from the spec: the untyped storage backing
`torch._dynamo.testing.rand_strided(shape, stride, dtype, device)` — a fresh
buffer of `sum((shape_i - 1) * stride_i) + 1` elements (computed in `Int`, so
a zero-sized shape yields zero elements) of the given dtype on the given
device, filled with deterministic pseudo-random data. -/
def rand_strided_storage (shape stride : List Nat) (dtype : DType) (device : Device) :
    UntypedStorage :=
  let needed : Int :=
    ((List.zip shape stride).foldl (fun a p => a + ((p.1 : Int) - 1) * (p.2 : Int)) 0) + 1
  { sid := 0, data := randBytes (needed.toNat * dtype.itemsize), device := device }

/-- `InputReader.storage` (after_aot.py line 248): resolve defaults, try the
content store if both a store and a hash are available, tolerate a stored
device differing from the recorded one (warn, return the stored storage
unchanged), and otherwise synthesize deterministic random data of the hinted
dtype on the recorded device.  Returns the storage plus the logged warnings;
this function cannot fail. -/
def InputReader.storage (store : Option ContentStore) (storage_hash : Option Hash)
    (nbytes : Nat) (device0 : Option Device) (dtype_hint0 : Option DType) :
    UntypedStorage × List String :=
  let device := _device_or_default device0
  let dtype_hint := _dtype_or_default dtype_hint0
  let found : Option UntypedStorage :=
    match store, storage_hash with
    | some cs, some h => storeLookup cs h
    | _, _ => none
  match found with
  | some storage =>
    if device ≠ storage.device then
      (storage, ["device mismatch: " ++ deviceStr device ++ " != " ++ deviceStr storage.device])
    else
      (storage, [])
  | none =>
    let shape := [nbytes / dtype_hint.itemsize]
    let stride := _stride_or_default none shape
    (rand_strided_storage shape stride dtype_hint device,
      ["could not load, generating random data instead"])

/-- `InputReader.tensor` (after_aot.py line 270): `torch.tensor([])` on the
storage's device followed by `t.set_(storage, storage_offset, shape, stride)`
and `set_tensor_metadata`; omitted fields resolve to the canonical defaults. -/
def InputReader.tensor (storage : UntypedStorage) (shape : List Nat)
    (stride : Option (List Nat)) (storage_offset : Option Nat) (dtype : Option DType)
    (metadata : List String) : Tensor :=
  { storage := storage
    shape := shape
    stride := _stride_or_default stride shape
    storage_offset := _storage_offset_or_default storage_offset
    dtype := _dtype_or_default dtype
    metadata := metadata }

/-- One instruction of the replay script (`load_args` body).  An `Option`
field set to `none` is an attribute omitted from the emitted script line. -/
inductive Instr where
  | storage (name : Nat) (storage_hash : Option Hash) (nbytes : Nat)
      (device : Option Device) (dtype_hint : Option DType)
  | tensor (storageName : Nat) (shape : List Nat) (stride : Option (List Nat))
      (storage_offset : Option Nat) (dtype : Option DType) (metadata : List String)
  | symint (val : Int)
deriving DecidableEq

/-- Whether an instruction is a storage allocation. -/
def Instr.isStorage : Instr → Bool
  | .storage _ _ _ _ _ => true
  | _ => false

/-- A replayed value appended to `reader.args`. -/
inductive Value where
  | tensor (t : Tensor)
  | symint (i : Int)
deriving DecidableEq

/-- Lookup of a script-local buffer binding (`buf0 = reader.storage(...)`). -/
def envLookup : List (Nat × UntypedStorage) → Nat → Option UntypedStorage
  | [], _ => none
  | (k, v) :: rest, n => if k = n then some v else envLookup rest n

/-- Replaying a script: execute the instructions in order against an optional
content store, binding storage names, appending reconstructed values to the
argument list and accumulating the logged warnings.  A tensor instruction that
references a name no storage instruction bound is a structural error. -/
def runScript (store : Option ContentStore) (env : List (Nat × UntypedStorage))
    (args : List Value) (lg : List String) :
    List Instr → Except String (List Value × List String)
  | [] => .ok (args, lg)
  | .storage v h n d dt :: rest =>
    let r := InputReader.storage store h n d dt
    runScript store ((v, r.1) :: env) args (lg ++ r.2) rest
  | .tensor sn shape stride off dt md :: rest =>
    match envLookup env sn with
    | none => .error "NameError: tensor references an unallocated buffer"
    | some s =>
      runScript store env (args ++ [.tensor (InputReader.tensor s shape stride off dt md)]) lg rest
  | .symint v :: rest =>
    runScript store env (args ++ [.symint v]) lg rest

/-- The state of one `InputWriter` session (after_aot.py line 306). -/
structure InputWriter where
  lines : List Instr
  storage_counter : Nat
  seen_storages : List (Nat × Nat)
  store : Option ContentStore
deriving DecidableEq

/-- A fresh writer: `InputWriter(save_dir)`; `store = none` models
`save_dir=None` (no content store), `some cs` a save dir whose store currently
holds `cs`. -/
def freshWriter (store : Option ContentStore) : InputWriter :=
  { lines := [], storage_counter := 0, seen_storages := [], store := store }

/-- Lookup in the `seen_storages` dedup map (keyed by `StorageWeakRef`). -/
def seenLookup : List (Nat × Nat) → Nat → Option Nat
  | [], _ => none
  | (k, v) :: rest, n => if k = n then some v else seenLookup rest n

/-- `InputWriter.storage` (after_aot.py line 334): deduplicate on the weak
storage identity; otherwise allocate the next `buf` name, emit the dtype hint
and device only when they differ from the defaults (the device of a meta
storage is replaced by the mandatory device hint — its absence is the source's
`assert`, hence the `Except`), write the content to the store when one is
configured and the storage is not meta, and append the storage instruction. -/
def InputWriter.storage (w : InputWriter) (us : UntypedStorage)
    (dtype_hint : Option DType) (device_hint : Option Device) :
    Except String (Nat × InputWriter) :=
  match seenLookup w.seen_storages us.sid with
  | some v => .ok (v, w)
  | none =>
    let v := w.storage_counter
    let maybe_dtype_hint : Option DType :=
      if _dtype_or_default none ≠ _dtype_or_default dtype_hint then dtype_hint else none
    match (if us.device = .meta then device_hint else some us.device) with
    | none => .error "AssertionError: meta storage requires a device hint"
    | some device =>
      let maybe_device : Option Device :=
        if _device_or_default none ≠ device then some device else none
      let nbytes := us.nbytes
      let hs : Option Hash × Option ContentStore :=
        match w.store with
        | some cs =>
          if us.device ≠ .meta then
            let r := write_storage cs us
            (some r.1, some r.2)
          else (none, some cs)
        | none => (none, none)
      .ok (v,
        { lines := w.lines ++ [.storage v hs.1 nbytes maybe_device maybe_dtype_hint]
          storage_counter := w.storage_counter + 1
          seen_storages := w.seen_storages ++ [(us.sid, v)]
          store := hs.2 })

/-- `InputWriter.tensor` (after_aot.py line 362): record the backing storage
(dtype and device of the tensor as hints), then emit a tensor instruction that
spells out stride, storage offset and dtype only when they differ from the
canonical defaults, and carries the auxiliary tensor metadata verbatim. -/
def InputWriter.tensor (w : InputWriter) (_name : String) (t : Tensor) :
    Except String InputWriter :=
  match InputWriter.storage w t.storage (some t.dtype) (some t.device) with
  | .error e => .error e
  | .ok (storageName, w2) =>
    let maybe_stride : Option (List Nat) :=
      if _stride_or_default none t.shape ≠ t.stride then some t.stride else none
    let maybe_storage_offset : Option Nat :=
      if _storage_offset_or_default none ≠ t.storage_offset then some t.storage_offset else none
    let maybe_dtype : Option DType :=
      if _dtype_or_default none ≠ t.dtype then some t.dtype else none
    .ok { w2 with
      lines := w2.lines ++
        [.tensor storageName t.shape maybe_stride maybe_storage_offset maybe_dtype t.metadata] }

/-- An integer argument: either a concrete int or a symbolic int carrying its
concrete hint (`val.node.hint`). -/
inductive IntArg where
  | int (i : Int)
  | symIntHint (hint : Int)
deriving DecidableEq

/-- The persisted value of an integer argument: only the hint is persisted. -/
def IntArg.hint : IntArg → Int
  | .int i => i
  | .symIntHint h => h

/-- `InputWriter.symint` (after_aot.py line 387): a `torch.SymInt` is replaced
by its hint, then a symint instruction is appended. -/
def InputWriter.symint (w : InputWriter) (_name : String) (val : IntArg) : InputWriter :=
  { w with lines := w.lines ++ [.symint val.hint] }

/-! ### The capture wrapper (`wrap_compiler_debug`, after_aot.py lines 56-190) -/

/-- The exceptions the wrapper can observe or raise.  `original` is an
arbitrary exception of the wrapped compile/execute step, `osError` an
operating-system error raised by a persistence side effect, carrying a code to
tell instances apart. -/
inductive Err where
  | original (code : Nat)
  | osError (code : Nat)
  | accuracyError
  | notImplementedError
deriving DecidableEq

/-- The value of `config.repro_after`. -/
inductive ReproAfter where
  | dynamo
  | aot
deriving DecidableEq

/-- One configuration-plus-outcome environment for a run of the wrapper: the
configuration knobs, and the outcome of each external step the wrapper calls
(whether `compiler_fn` raised, whether the compiled callable raised or what it
returned, whether the accuracy check failed, and whether each persistence side
effect raises).  `gs_copy_oserr` is the outcome of the `shutil.copyfile`
convenience copy inside `dump_compiler_graph_state`, whose failures are
`OSError`s, represented by their code. -/
structure DebugEnv where
  compiler_name : String
  repro_after : Option ReproAfter
  repro_level : Nat
  compile_err : Option Err
  invoke_err : Option Err
  invoke_out : Nat
  accuracy_fails : Bool
  gs_write_err : Option Err
  gs_copy_oserr : Option Nat
  minify_err : Option Err
deriving DecidableEq

/-- `dump_compiler_graph_state` (after_aot.py line 479): logs the checkpoint
warning, performs the main write (a failure there propagates), then attempts
the convenience copy to `repro.py`, catching `OSError` and logging a warning
instead of failing.  Returns the log lines and the propagated error, if any. -/
def dump_compiler_graph_state (writeErr : Option Err) (copyOSErr : Option Nat) :
    List String × Option Err :=
  match writeErr with
  | some e => (["Writing checkpoint with nodes"], some e)
  | none =>
    match copyOSErr with
    | some _ => (["Writing checkpoint with nodes", "No write permissions for repro.py"], none)
    | none => (["Writing checkpoint with nodes", "Copying repro file for convenience"], none)

/-- `dump_to_minify` (after_aot.py line 506): renders the repro to a string
(which cannot fail) and hands it to `helper_for_dump_minify`, an external
helper whose outcome is the parameter. -/
def dump_to_minify (minifyErr : Option Err) : List String × Option Err :=
  ([], minifyErr)

/-- The compile step of `debug_wrapper` (after_aot.py lines 79-100): call the
compiler; on an exception, when `repro_after` is `aot`, dump a checkpoint at
level 1, dump the minifier at level 2 (an exception inside either dump
propagates instead of the original), log `CompilerError`, and re-raise. -/
def compile_step (env : DebugEnv) : List String × Option Err :=
  match env.compile_err with
  | none => ([], none)
  | some e =>
    if env.repro_after = some .aot then
      if env.repro_level = 1 then
        let r := dump_compiler_graph_state env.gs_write_err env.gs_copy_oserr
        match r.2 with
        | some e2 => (r.1, some e2)
        | none => (r.1 ++ ["CompilerError"], some e)
      else if env.repro_level = 2 then
        let r := dump_to_minify env.minify_err
        match r.2 with
        | some e2 => (r.1, some e2)
        | none => (r.1 ++ ["CompilerError"], some e)
      else (["CompilerError"], some e)
    else ([], some e)

/-- `inner_debug_fn` (after_aot.py lines 113-181): at level 3, always dump the
minifier first (its exception propagates).  At level 4, require the inductor
backend (`NotImplementedError` otherwise); on an accuracy failure, log a
warning, dump the checkpoint and the minifier, and raise `AccuracyError` (an
exception inside a dump propagates instead); on accuracy success, return the
compiled callable's result.  At every other level, invoke the compiled
callable and, if it raises, dump the checkpoint at level 1 or the minifier at
level 2 (a dump exception propagates instead of the original), then
re-raise. -/
def inner_debug_fn (env : DebugEnv) : List String × Except Err Nat :=
  let step3 : List String × Option Err :=
    if env.repro_level = 3 then dump_to_minify env.minify_err else ([], none)
  match step3 with
  | (lg0, some e2) => (lg0, .error e2)
  | (lg0, none) =>
    if env.repro_level = 4 then
      if env.compiler_name ≠ "inductor" then
        (lg0, .error .notImplementedError)
      else if env.accuracy_fails then
        let lg1 := lg0 ++ ["Accuracy failed for the AOT Autograd graph"]
        let r2 := dump_compiler_graph_state env.gs_write_err env.gs_copy_oserr
        match r2.2 with
        | some e2 => (lg1 ++ r2.1, .error e2)
        | none =>
          let r3 := dump_to_minify env.minify_err
          match r3.2 with
          | some e3 => (lg1 ++ r2.1 ++ r3.1, .error e3)
          | none => (lg1 ++ r2.1 ++ r3.1, .error .accuracyError)
      else
        match env.invoke_err with
        | some e => (lg0, .error e)
        | none => (lg0, .ok env.invoke_out)
    else
      match env.invoke_err with
      | none => (lg0, .ok env.invoke_out)
      | some e =>
        if env.repro_level = 1 then
          let r2 := dump_compiler_graph_state env.gs_write_err env.gs_copy_oserr
          match r2.2 with
          | some e2 => (lg0 ++ r2.1, .error e2)
          | none => (lg0 ++ r2.1, .error e)
        else if env.repro_level = 2 then
          let r2 := dump_to_minify env.minify_err
          match r2.2 with
          | some e2 => (lg0 ++ r2.1, .error e2)
          | none => (lg0 ++ r2.1, .error e)
        else (lg0, .error e)

/-- `deferred_for_real_inputs` (after_aot.py lines 104-111): when
`config.repro_after` is no longer `aot` (the recursion guard), pass straight
through to the compiled callable; otherwise run `inner_debug_fn` with
`repro_after` patched to `None` (which `inner_debug_fn` does not consult). -/
def deferred_for_real_inputs (env : DebugEnv) : List String × Except Err Nat :=
  if env.repro_after ≠ some .aot then
    match env.invoke_err with
    | none => ([], .ok env.invoke_out)
    | some e => ([], .error e)
  else inner_debug_fn env

/-- What `debug_wrapper` returns on a successful compile. -/
inductive CompiledKind where
  | deferred
  | direct
deriving DecidableEq

/-- `debug_wrapper`'s outer result (after_aot.py lines 66-188): the compile
step's error if any, else the deferred invoker when `repro_after` is `aot` and
the compiled callable directly otherwise. -/
def debug_wrapper (env : DebugEnv) : List String × Except Err CompiledKind :=
  match compile_step env with
  | (lg, some e) => (lg, .error e)
  | (lg, none) =>
    if env.repro_after = some .aot then (lg, .ok .deferred) else (lg, .ok .direct)

/-! ### The divergence analyzer (`repro_analyze`, after_aot.py lines 706-839) -/

/-- A numeric scalar as the tolerance comparison sees it: NaN or a number. -/
inductive FVal where
  | nan
  | num (q : ℚ)
deriving DecidableEq

/-- An intermediate value: the flat list of its scalars. -/
abbrev FTensor := List FVal

/-- Modelled from the spec: scalar closeness under a tolerance with NaN-equal
semantics — two NaNs agree, two numbers agree within `tol` (their absolute
difference is at most `tol`, phrased as both signed differences being at most
`tol`), a NaN never agrees with a number. -/
def closeVal (tol : ℚ) : FVal → FVal → Bool
  | .nan, .nan => true
  | .num a, .num b => a - b ≤ tol && b - a ≤ tol
  | _, _ => false

/-- Modelled from the spec: elementwise closeness of two values (shapes, hence
lengths, must agree). -/
def closeTensor (tol : ℚ) (xs ys : FTensor) : Bool :=
  xs.length = ys.length && (List.zip xs ys).all fun p => closeVal tol p.1 p.2

/-- Modelled from the spec: `torch._dynamo.utils.same(r, inductor, float64,
tol, equal_nan=True)` (not under src/) — the original-semantics value is
compared pairwise against both stored strategy values under the tolerance. -/
def same (r inductorVal float64Val : FTensor) (tol : ℚ) : Bool :=
  closeTensor tol r inductorVal && closeTensor tol r float64Val

/-- One node of the traversed graph, carrying the value the original-semantics
(eager) execution produces for it. -/
structure ANode where
  name : String
  eager : FTensor
deriving DecidableEq

/-- The message `ReaderInterp.run_node`'s `log_error` writes for a diverged
node, naming the comparison that failed. -/
def divergeMsg (tol : ℚ) (n : ANode) (inductorVal _float64Val : FTensor) : String :=
  "DIVERGED at " ++ n.name ++ ": " ++
    (if closeTensor tol n.eager inductorVal then "float64 comparison failed"
     else "inductor comparison failed")

/-- Whether the divergence check fires at a node: its name has recorded traces
(`known_names`) and the original value disagrees with one of the two stored
strategies beyond tolerance. -/
def divergesAt (known : List String) (tol : ℚ) (ind f64 : String → FTensor)
    (n : ANode) : Bool :=
  decide (n.name ∈ known) && !(same n.eager (ind n.name) (f64 n.name) tol)

/-- `ReaderInterp.run_node` (after_aot.py lines 811-835), restricted to its
reporting effect: for a node with recorded traces, read both stored values and
write a divergence message when `same` fails; other nodes report nothing. -/
def run_node_check (known : List String) (tol : ℚ) (ind f64 : String → FTensor)
    (n : ANode) : List String :=
  if n.name ∈ known then
    if same n.eager (ind n.name) (f64 n.name) tol then []
    else [divergeMsg tol n (ind n.name) (f64 n.name)]
  else []

/-- The divergence-checking pass (`ReaderInterp(mod).boxed_run`): traverse the
nodes in emission order, collecting the reported messages in order. -/
def check_divergence (known : List String) (tol : ℚ) (ind f64 : String → FTensor) :
    List ANode → List String
  | [] => []
  | n :: rest =>
    run_node_check known tol ind f64 n ++ check_divergence known tol ind f64 rest

/-- One entry of a structural-metadata tuple.  The source compares the tuples
returned by `compute_tensor_metadata` elementwise with `!=`, so the entries
are typed values, not strings. -/
inductive MetaVal where
  | shapeV (l : List Nat)
  | strideV (l : List Nat)
  | dtypeV (d : DType)
  | deviceV (d : Device)
deriving DecidableEq

/-- Printable form of a metadata entry, for the mismatch message. -/
def metaValStr : MetaVal → String
  | .shapeV l => "(" ++ String.intercalate ", " (l.map toString) ++ ")"
  | .strideV l => "(" ++ String.intercalate ", " (l.map toString) ++ ")"
  | .dtypeV d =>
    match d with
    | .float32 => "torch.float32"
    | .float64 => "torch.float64"
    | .float16 => "torch.float16"
    | .int64 => "torch.int64"
    | .int32 => "torch.int32"
    | .uint8 => "torch.uint8"
  | .deviceV d => deviceStr d

/-- Modelled from the spec: `ContentStoreWriter.compute_tensor_metadata` (not
under src/) — the structural metadata tuple of a tensor: shape, stride, dtype
and device, never the content. -/
def compute_tensor_metadata (t : Tensor) : List MetaVal :=
  [.shapeV t.shape, .strideV t.stride, .dtypeV t.dtype, .deviceV t.storage.device]

/-- `compare_tuples` (after_aot.py lines 742-749): indices where the tuples
differ; `none` when they all agree, else the differing pairs joined into a
human-readable reason. -/
def compare_tuples (tuple1 tuple2 : List MetaVal) : Option String :=
  let diff_values : List (MetaVal × MetaVal) :=
    (List.range tuple1.length).filterMap fun i =>
      match tuple1[i]?, tuple2[i]? with
      | some a, some b => if a ≠ b then some (a, b) else none
      | _, _ => none
  if diff_values.isEmpty then none
  else some (String.intercalate " and "
    (diff_values.map fun p => metaValStr p.1 ++ " != " ++ metaValStr p.2))

/-- `check_hook` (after_aot.py lines 751-757): compare the metadata of the
second run's value against the metadata stored by the first run; on any
mismatch, immediately write the nondeterminism message for that node. -/
def check_hook (stored : String → List MetaVal) (name : String) (val : Tensor) :
    List String :=
  match compare_tuples (compute_tensor_metadata val) (stored name) with
  | some reason => ["NONDETERMINISTIC INDUCTOR at " ++ name ++ " (" ++ reason ++ ")"]
  | none => []

/-- The determinism-checking pass: re-run the compiled execution and apply
`check_hook` to every hooked intermediate, in order. -/
def check_determinism (stored : String → List MetaVal) :
    List (String × Tensor) → List String
  | [] => []
  | p :: rest => check_hook stored p.1 p.2 ++ check_determinism stored rest

/-! ### Isolation and the minifier-query exit code (after_aot.py lines 516-672) -/

/-- `isolate_fails` (after_aot.py lines 516-566), from the spawned process's
exit onwards: a non-zero exit code means the failure reproduced (`true`) and
only then are the captured stdout/stderr printed; a zero exit code means it no
longer reproduces (`false`) with nothing printed.  The second component is
what gets printed. -/
def isolate_fails (returncode : Int) (stdout stderr : String) : Bool × List String :=
  if returncode ≠ 0 then (true, [stdout, stderr]) else (false, [])

/-- `repro_minifier_query` (after_aot.py lines 666-672): pick the accuracy or
plain failure predicate according to the flag, exit 1 when it holds and 0
otherwise.  The arguments are the two predicates' outcomes on the replayed
artifact; the result is the process exit code. -/
def repro_minifier_query (accuracy : Bool) (inductor_fails_out inductor_accuracy_fails_out : Bool) : Nat :=
  let fail_fn_out := if accuracy then inductor_accuracy_fails_out else inductor_fails_out
  if fail_fn_out then 1 else 0

/-! ### Round-trip plumbing used by the claims -/

/-- Write a single tensor into a fresh writer session. -/
def writeOneTensor (store : Option ContentStore) (t : Tensor) : Except String InputWriter :=
  InputWriter.tensor (freshWriter store) ("arg0") t

/-- Replay a finished writer session's script against the store it wrote. -/
def replayed (w : InputWriter) : Except String (List Value × List String) :=
  runScript w.store [] [] [] w.lines

/-- Write one tensor, then replay the script: the round trip. -/
def writeReadOne (store : Option ContentStore) (t : Tensor) :
    Except String (List Value × List String) :=
  match writeOneTensor store t with
  | .error e => .error e
  | .ok w => replayed w

/-- Write two tensors into one fresh writer session. -/
def writeTwoTensors (store : Option ContentStore) (t1 t2 : Tensor) :
    Except String InputWriter :=
  match InputWriter.tensor (freshWriter store) ("a") t1 with
  | .error e => .error e
  | .ok w => InputWriter.tensor w ("b") t2

/-- Write one symint, then replay the script. -/
def writeReadSymint (store : Option ContentStore) (v : IntArg) :
    Except String (List Value × List String) :=
  replayed (InputWriter.symint (freshWriter store) ("s0") v)

/-- The fetch of a storage instruction's content misses: no store, no recorded
hash, or the hash absent from the store. -/
def fetchMisses (store : Option ContentStore) (storage_hash : Option Hash) : Prop :=
  match store, storage_hash with
  | some cs, some h => storeLookup cs h = none
  | _, _ => True

instance (store : Option ContentStore) (storage_hash : Option Hash) :
    Decidable (fetchMisses store storage_hash) := by
  unfold fetchMisses
  match store, storage_hash with
  | some cs, some h => exact inferInstanceAs (Decidable (storeLookup cs h = none))
  | some _, none => exact inferInstanceAs (Decidable True)
  | none, _ => exact inferInstanceAs (Decidable True)

/-- The storage hash `InputWriter.storage` records for a first-seen storage:
present exactly when a store is configured and the storage is not meta. -/
def storeHashOf (store : Option ContentStore) (us : UntypedStorage) : Option Hash :=
  match store with
  | some _ => if us.device ≠ .meta then some us.data else none
  | none => none

/-- The content store after `InputWriter.storage` handles a first-seen
storage. -/
def storeAfterOf (store : Option ContentStore) (us : UntypedStorage) : Option ContentStore :=
  match store with
  | some cs => if us.device ≠ .meta then some (write_storage cs us).2 else some cs
  | none => none

/-! ### Concrete inputs used by the claim witnesses -/

/-- A small concrete storage: four bytes on the host device. -/
def wStorage : UntypedStorage := { sid := 7, data := [0, 0, 128, 63], device := .cpu }

/-- A concrete tensor viewing `wStorage`. -/
def wTensor : Tensor :=
  { storage := wStorage, shape := [1], stride := [1], storage_offset := 0,
    dtype := .float32, metadata := [] }

/-- A second concrete view over the same `wStorage`. -/
def wTensor2 : Tensor :=
  { storage := wStorage, shape := [4], stride := [1], storage_offset := 0,
    dtype := .uint8, metadata := [] }

/-- Same structural metadata as `wTensor`, different content. -/
def wTensorOtherData : Tensor :=
  { wTensor with storage := { wStorage with data := [9, 9, 9, 9] } }

/-- Same as `wTensor` except for the shape. -/
def wTensorOtherShape : Tensor := { wTensor with shape := [2] }

/-- A concrete wrapper environment: compile fails, level-1 capture, and the
checkpoint write itself raises an `OSError`. -/
def c1CounterEnv : DebugEnv :=
  { compiler_name := "inductor", repro_after := some .aot, repro_level := 1,
    compile_err := some (.original 3), invoke_err := none, invoke_out := 0,
    accuracy_fails := false, gs_write_err := some (.osError 28), gs_copy_oserr := none,
    minify_err := none }

/-- Same environment, but the checkpoint write succeeds and only the
convenience copy fails. -/
def c1WitnessEnv : DebugEnv :=
  { c1CounterEnv with gs_write_err := none, gs_copy_oserr := some 13 }

/-- A level-4 environment with a non-inductor backend. -/
def c8WitnessEnv : DebugEnv :=
  { compiler_name := "nvfuser", repro_after := some .aot, repro_level := 4,
    compile_err := none, invoke_err := some (.original 9), invoke_out := 5,
    accuracy_fails := true, gs_write_err := none, gs_copy_oserr := none,
    minify_err := none }

/-- Three concrete analysis nodes: `a` and `b` agree with the stored traces,
`c` does not. -/
def nodeA : ANode := { name := "a", eager := [.num 0] }

/-- See `nodeA`. -/
def nodeB : ANode := { name := "b", eager := [.num 0] }

/-- See `nodeA`: the diverging node. -/
def nodeC : ANode := { name := "c", eager := [.num 1] }

/-- The stored trace both strategies recorded for every node of the witness. -/
def witTrace : String → FTensor := fun _ => [.num 0]

/-- All three witness nodes have recorded traces. -/
def witKnown : List String := ["a", "b", "c"]

/-! ## Theorems

First a few helper lemmas about the default-omission round trip and the
writer, then one theorem (plus witness/counterexample where required) per
claim. -/

theorem randBytes_length (n : Nat) : (randBytes n).length = n := by
  simp [randBytes]

theorem stride_or_default_emit (shape x : List Nat) :
    _stride_or_default (if _stride_or_default none shape ≠ x then some x else none) shape = x := by
  by_cases h : _stride_or_default none shape ≠ x
  · rw [if_pos h]; rfl
  · rw [if_neg h]; exact not_not.mp h

theorem dtype_or_default_emit (x : DType) :
    _dtype_or_default (if _dtype_or_default none ≠ x then some x else none) = x := by
  by_cases h : _dtype_or_default none ≠ x
  · rw [if_pos h]; rfl
  · rw [if_neg h]; exact not_not.mp h

theorem device_or_default_emit (x : Device) :
    _device_or_default (if _device_or_default none ≠ x then some x else none) = x := by
  by_cases h : _device_or_default none ≠ x
  · rw [if_pos h]; rfl
  · rw [if_neg h]; exact not_not.mp h

theorem storage_offset_or_default_emit (x : Nat) :
    _storage_offset_or_default (if _storage_offset_or_default none ≠ x then some x else none) = x := by
  by_cases h : _storage_offset_or_default none ≠ x
  · rw [if_pos h]; rfl
  · rw [if_neg h]; exact not_not.mp h

theorem write_storage_fst (cs : ContentStore) (s : UntypedStorage) :
    (write_storage cs s).1 = s.data := by
  unfold write_storage
  cases h : storeLookup cs s.data <;> simp

/-- Writing a first tensor into a fresh session emits exactly one storage
instruction followed by one tensor instruction, with every attribute present
exactly when it differs from its canonical default. -/
theorem writer_first_tensor (store : Option ContentStore) (nm : String) (t : Tensor) :
    InputWriter.tensor (freshWriter store) nm t = .ok
      { lines := [Instr.storage 0 (storeHashOf store t.storage) t.storage.nbytes
                    (if _device_or_default none ≠ t.storage.device then some t.storage.device else none)
                    (if _dtype_or_default none ≠ _dtype_or_default (some t.dtype) then some t.dtype else none),
                  Instr.tensor 0 t.shape
                    (if _stride_or_default none t.shape ≠ t.stride then some t.stride else none)
                    (if _storage_offset_or_default none ≠ t.storage_offset then some t.storage_offset else none)
                    (if _dtype_or_default none ≠ t.dtype then some t.dtype else none)
                    t.metadata],
        storage_counter := 1,
        seen_storages := [(t.storage.sid, 0)],
        store := storeAfterOf store t.storage } := by
  by_cases hmeta : t.storage.device = Device.meta <;>
    cases store <;>
      simp [InputWriter.tensor, InputWriter.storage, freshWriter, seenLookup,
        Tensor.device, storeHashOf, storeAfterOf, hmeta, write_storage_fst]

/-- Writing a tensor whose storage the session has already seen appends a
single tensor instruction referencing the recorded name. -/
theorem writer_seen_tensor (w : InputWriter) (nm : String) (t : Tensor) (v : Nat)
    (hseen : seenLookup w.seen_storages t.storage.sid = some v) :
    InputWriter.tensor w nm t = .ok
      { w with lines := w.lines ++
          [Instr.tensor v t.shape
            (if _stride_or_default none t.shape ≠ t.stride then some t.stride else none)
            (if _storage_offset_or_default none ≠ t.storage_offset then some t.storage_offset else none)
            (if _dtype_or_default none ≠ t.dtype then some t.dtype else none)
            t.metadata] } := by
  simp [InputWriter.tensor, InputWriter.storage, hseen]

/-- Claim C9: the isolation predicate is true exactly on a non-zero subprocess
exit code, the captured stdout/stderr are printed only on that branch, and the
minifier-query subcommand exits 1 when the selected failure predicate holds
and 0 otherwise. -/
theorem c9_isolation_exit_codes (rc : Int) (out err : String) (accuracy f1 f2 : Bool) :
    ((isolate_fails rc out err).1 = true ↔ rc ≠ 0) ∧
    ((isolate_fails rc out err).2 = if rc ≠ 0 then [out, err] else []) ∧
    (repro_minifier_query accuracy f1 f2 = if (if accuracy then f2 else f1) then 1 else 0) := by
  refine ⟨?_, ?_, rfl⟩ <;> by_cases h : rc = 0 <;> simp [isolate_fails, h]

/-- Witness for C9 at a reproducing exit code. -/
theorem c9_isolation_exit_codes_witness :
    ((isolate_fails 1 ("out") ("err")).1 = true ↔ (1 : Int) ≠ 0) ∧
    ((isolate_fails 1 ("out") ("err")).2 = if (1 : Int) ≠ 0 then [("out"), ("err")] else []) ∧
    (repro_minifier_query true false true = if (if true then true else false) then 1 else 0) :=
  c9_isolation_exit_codes 1 ("out") ("err") true false true

/-- Claim C10: when the store holds the hash but the stored storage's device
differs from the recorded device, the reader warns and returns the stored
storage unchanged, on its stored device. -/
theorem c10_store_device_wins (cs : ContentStore) (h : Hash) (s : UntypedStorage)
    (nbytes : Nat) (device0 : Option Device) (dtype_hint0 : Option DType)
    (hfound : storeLookup cs h = some s) (hdev : _device_or_default device0 ≠ s.device) :
    InputReader.storage (some cs) (some h) nbytes device0 dtype_hint0 =
      (s, ["device mismatch: " ++ deviceStr (_device_or_default device0) ++ " != " ++
        deviceStr s.device]) := by
  simp [InputReader.storage, hfound, hdev]

/-- Witness for C10: a CUDA storage under a script line that recorded no
device (hence cpu). -/
theorem c10_store_device_wins_witness :
    storeLookup [([0, 0, 128, 63], { sid := 7, data := [0, 0, 128, 63], device := Device.cuda 0 })]
        [0, 0, 128, 63] = some { sid := 7, data := [0, 0, 128, 63], device := Device.cuda 0 } ∧
    _device_or_default none ≠ Device.cuda 0 ∧
    InputReader.storage
        (some [([0, 0, 128, 63], { sid := 7, data := [0, 0, 128, 63], device := Device.cuda 0 })])
        (some [0, 0, 128, 63]) 4 none none =
      ({ sid := 7, data := [0, 0, 128, 63], device := Device.cuda 0 },
        ["device mismatch: " ++ deviceStr (_device_or_default none) ++ " != " ++
          deviceStr (UntypedStorage.device { sid := 7, data := [0, 0, 128, 63], device := Device.cuda 0 })]) :=
  ⟨by decide, by decide,
    c10_store_device_wins _ _ _ 4 none none (by decide) (by decide)⟩

/-- On any content miss, `InputReader.storage` returns the synthesized
storage and the substitution warning. -/
theorem reader_storage_miss (store : Option ContentStore) (storage_hash : Option Hash)
    (nbytes : Nat) (device0 : Option Device) (dtype_hint0 : Option DType)
    (hmiss : fetchMisses store storage_hash) :
    InputReader.storage store storage_hash nbytes device0 dtype_hint0 =
      ({ sid := 0,
         data := randBytes (nbytes / (_dtype_or_default dtype_hint0).itemsize *
           (_dtype_or_default dtype_hint0).itemsize),
         device := _device_or_default device0 },
       ["could not load, generating random data instead"]) := by
  have hq : rand_strided_storage [nbytes / (_dtype_or_default dtype_hint0).itemsize]
      (_stride_or_default none [nbytes / (_dtype_or_default dtype_hint0).itemsize])
      (_dtype_or_default dtype_hint0) (_device_or_default device0) =
      { sid := 0,
        data := randBytes (nbytes / (_dtype_or_default dtype_hint0).itemsize *
          (_dtype_or_default dtype_hint0).itemsize),
        device := _device_or_default device0 } := by
    have hcast : ((nbytes : Int) / ((_dtype_or_default dtype_hint0).itemsize : Int)).toNat =
        nbytes / (_dtype_or_default dtype_hint0).itemsize := by
      rw [← Int.natCast_div]
      exact Int.toNat_natCast _
    simp [rand_strided_storage, _stride_or_default, make_contiguous_strides_for, contigAux, hcast]
  match store, storage_hash with
  | none, none => simp [InputReader.storage, hq]
  | none, some h => simp [InputReader.storage, hq]
  | some cs, none => simp [InputReader.storage, hq]
  | some cs, some h =>
    have hl : storeLookup cs h = none := hmiss
    simp [InputReader.storage, hl, hq]

/-- Counterexample to C7 as stated: at a storage instruction recording 5 bytes
with the default (4-byte) dtype hint, the synthesized substitute holds 4
bytes, not the recorded 5. -/
theorem c7_counterexample :
    (InputReader.storage none none 5 none none).1.nbytes = 4 ∧ (4 : Nat) ≠ 5 ∧
    (InputReader.storage none none 5 none none).2 =
      ["could not load, generating random data instead"] := by
  refine ⟨by decide, by decide, by decide⟩

/-- Claim C7 (amended): on any content miss the reader does not fail; it logs
the substitution and synthesizes deterministic data on the recorded (or
default) device, of byte length the recorded byte count rounded down to a
multiple of the dtype hint's element size — equal to the recorded byte count
whenever the element size divides it. -/
theorem c7_synthesize_on_miss (store : Option ContentStore) (storage_hash : Option Hash)
    (nbytes : Nat) (device0 : Option Device) (dtype_hint0 : Option DType)
    (hmiss : fetchMisses store storage_hash) :
    (InputReader.storage store storage_hash nbytes device0 dtype_hint0).1.device =
      _device_or_default device0 ∧
    (InputReader.storage store storage_hash nbytes device0 dtype_hint0).1.nbytes =
      nbytes / (_dtype_or_default dtype_hint0).itemsize * (_dtype_or_default dtype_hint0).itemsize ∧
    ((_dtype_or_default dtype_hint0).itemsize ∣ nbytes →
      (InputReader.storage store storage_hash nbytes device0 dtype_hint0).1.nbytes = nbytes) ∧
    (InputReader.storage store storage_hash nbytes device0 dtype_hint0).1.data =
      randBytes (nbytes / (_dtype_or_default dtype_hint0).itemsize *
        (_dtype_or_default dtype_hint0).itemsize) ∧
    (InputReader.storage store storage_hash nbytes device0 dtype_hint0).2 =
      ["could not load, generating random data instead"] := by
  rw [reader_storage_miss store storage_hash nbytes device0 dtype_hint0 hmiss]
  refine ⟨rfl, ?_, ?_, rfl, rfl⟩
  · simp [UntypedStorage.nbytes, randBytes_length]
  · intro hdvd
    simp [UntypedStorage.nbytes, randBytes_length, Nat.div_mul_cancel hdvd]

/-- Witness for C7 at a concrete miss whose byte count the element size
divides. -/
theorem c7_synthesize_on_miss_witness :
    fetchMisses none none ∧
    ((_dtype_or_default none).itemsize ∣ 8 →
      (InputReader.storage none none 8 none none).1.nbytes = 8) ∧
    (InputReader.storage none none 8 none none).1.nbytes = 8 :=
  ⟨trivial, (c7_synthesize_on_miss none none 8 none none trivial).2.2.1,
    (c7_synthesize_on_miss none none 8 none none trivial).2.2.1 (by decide)⟩

theorem dtype_or_default_some (d : DType) : _dtype_or_default (some d) = d := rfl

theorem reader_storage_none (nbytes : Nat) (device0 : Option Device) (dtype_hint0 : Option DType) :
    InputReader.storage none none nbytes device0 dtype_hint0 =
      ({ sid := 0,
         data := randBytes (nbytes / (_dtype_or_default dtype_hint0).itemsize *
           (_dtype_or_default dtype_hint0).itemsize),
         device := _device_or_default device0 },
       ["could not load, generating random data instead"]) :=
  reader_storage_miss none none nbytes device0 dtype_hint0 trivial

theorem stride_or_default_emit2 (shape x : List Nat) :
    _stride_or_default (if _stride_or_default none shape = x then none else some x) shape = x := by
  by_cases h : _stride_or_default none shape = x
  · rw [if_pos h]; exact h
  · rw [if_neg h]; rfl

theorem dtype_or_default_emit2 (x : DType) :
    _dtype_or_default (if _dtype_or_default none = x then none else some x) = x := by
  by_cases h : _dtype_or_default none = x
  · rw [if_pos h]; exact h
  · rw [if_neg h]; rfl

theorem device_or_default_emit2 (x : Device) :
    _device_or_default (if _device_or_default none = x then none else some x) = x := by
  by_cases h : _device_or_default none = x
  · rw [if_pos h]; exact h
  · rw [if_neg h]; rfl

theorem storage_offset_or_default_emit2 (x : Nat) :
    _storage_offset_or_default (if _storage_offset_or_default none = x then none else some x) = x := by
  by_cases h : _storage_offset_or_default none = x
  · rw [if_pos h]; exact h
  · rw [if_neg h]; rfl

theorem emit_none_iff {α : Type} [DecidableEq α] (d x : α) :
    ((if d ≠ x then some x else none) = none ↔ x = d) := by
  by_cases h : d ≠ x
  · rw [if_pos h]
    constructor
    · intro hc; cases hc
    · intro hx; exact absurd hx.symm h
  · rw [if_neg h]
    simp [not_not.mp h]

theorem emit_some_val {α : Type} [DecidableEq α] (d x y : α)
    (hy : (if d ≠ x then some x else none) = some y) : y = x := by
  by_cases h : d ≠ x
  · rw [if_pos h] at hy; exact (Option.some.inj hy).symm
  · rw [if_neg h] at hy; cases hy

/-- Claim C2: replaying a written tensor reconstructs it exactly (content
included) when the content store holds the written hash; without a store it
reconstructs a tensor correct in shape, stride, dtype, storage offset and
device whose content is the synthesized substitute; a written scalar/symbolic
int replays to its persisted hint. -/
theorem c2_roundtrip (t : Tensor) (v : IntArg) (hm : t.storage.device ≠ Device.meta) :
    writeReadOne (some []) t = .ok ([Value.tensor t], []) ∧
    (∃ t' : Tensor,
      writeReadOne none t = .ok ([Value.tensor t'], ["could not load, generating random data instead"]) ∧
      t'.shape = t.shape ∧ t'.stride = t.stride ∧ t'.dtype = t.dtype ∧
      t'.storage_offset = t.storage_offset ∧ t'.storage.device = t.storage.device) ∧
    writeReadSymint none v = .ok ([Value.symint v.hint], []) := by
  refine ⟨?_, ?_, ?_⟩
  · simp only [writeReadOne, writeOneTensor, writer_first_tensor]
    simp [replayed, runScript, storeHashOf, storeAfterOf, hm, write_storage, storeLookup,
      InputReader.storage, envLookup, InputReader.tensor, dtype_or_default_some,
      device_or_default_emit, stride_or_default_emit, storage_offset_or_default_emit,
      dtype_or_default_emit, device_or_default_emit2, stride_or_default_emit2,
      storage_offset_or_default_emit2, dtype_or_default_emit2]
  · refine ⟨InputReader.tensor
        { sid := 0,
          data := randBytes (t.storage.nbytes / t.dtype.itemsize * t.dtype.itemsize),
          device := t.storage.device }
        t.shape
        (if _stride_or_default none t.shape ≠ t.stride then some t.stride else none)
        (if _storage_offset_or_default none ≠ t.storage_offset then some t.storage_offset else none)
        (if _dtype_or_default none ≠ t.dtype then some t.dtype else none)
        t.metadata, ?_, rfl, ?_, ?_, ?_, rfl⟩
    · simp only [writeReadOne, writeOneTensor, writer_first_tensor]
      simp [replayed, runScript, storeHashOf, storeAfterOf, envLookup, reader_storage_none,
        dtype_or_default_some, device_or_default_emit, dtype_or_default_emit,
        device_or_default_emit2, dtype_or_default_emit2]
    · exact stride_or_default_emit t.shape t.stride
    · exact dtype_or_default_emit t.dtype
    · exact storage_offset_or_default_emit t.storage_offset
  · simp [writeReadSymint, InputWriter.symint, freshWriter, replayed, runScript]

/-- Witness for C2 at a concrete host tensor. -/
theorem c2_roundtrip_witness :
    wTensor.storage.device ≠ Device.meta ∧
    writeReadOne (some []) wTensor = .ok ([Value.tensor wTensor], []) :=
  ⟨by decide, (c2_roundtrip wTensor (IntArg.int 0) (by decide)).1⟩

/-- Claim C5: within one writer session, two tensors whose views share one
underlying storage produce exactly one storage-allocation instruction, both
tensor instructions reference its name, and replay reconstructs both tensors
on the same reconstructed storage. -/
theorem c5_storage_dedup (t1 t2 : Tensor) (hshare : t2.storage = t1.storage) :
    ∃ w : InputWriter,
      writeTwoTensors none t1 t2 = .ok w ∧
      (w.lines.filter Instr.isStorage).length = 1 ∧
      (∃ (hash : Option Hash) (dev : Option Device) (dth : Option DType)
         (s1 s2 : Option (List Nat)) (o1 o2 : Option Nat) (d1 d2 : Option DType),
        w.lines = [Instr.storage 0 hash t1.storage.nbytes dev dth,
                   Instr.tensor 0 t1.shape s1 o1 d1 t1.metadata,
                   Instr.tensor 0 t2.shape s2 o2 d2 t2.metadata]) ∧
      (∃ (r1 r2 : Tensor) (lg : List String),
        replayed w = .ok ([Value.tensor r1, Value.tensor r2], lg) ∧
        r1.storage = r2.storage) := by
  have hseen : seenLookup ([(t1.storage.sid, 0)] : List (Nat × Nat)) t2.storage.sid = some 0 := by
    rw [hshare]; simp [seenLookup]
  have h2 := writer_seen_tensor
    { lines := [Instr.storage 0 (storeHashOf none t1.storage) t1.storage.nbytes
                  (if _device_or_default none ≠ t1.storage.device then some t1.storage.device else none)
                  (if _dtype_or_default none ≠ _dtype_or_default (some t1.dtype) then some t1.dtype else none),
                Instr.tensor 0 t1.shape
                  (if _stride_or_default none t1.shape ≠ t1.stride then some t1.stride else none)
                  (if _storage_offset_or_default none ≠ t1.storage_offset then some t1.storage_offset else none)
                  (if _dtype_or_default none ≠ t1.dtype then some t1.dtype else none)
                  t1.metadata],
      storage_counter := 1,
      seen_storages := [(t1.storage.sid, 0)],
      store := storeAfterOf none t1.storage } ("b") t2 0 hseen
  refine ⟨{ lines := [Instr.storage 0 (storeHashOf none t1.storage) t1.storage.nbytes
                  (if _device_or_default none ≠ t1.storage.device then some t1.storage.device else none)
                  (if _dtype_or_default none ≠ _dtype_or_default (some t1.dtype) then some t1.dtype else none),
                Instr.tensor 0 t1.shape
                  (if _stride_or_default none t1.shape ≠ t1.stride then some t1.stride else none)
                  (if _storage_offset_or_default none ≠ t1.storage_offset then some t1.storage_offset else none)
                  (if _dtype_or_default none ≠ t1.dtype then some t1.dtype else none)
                  t1.metadata,
                Instr.tensor 0 t2.shape
                  (if _stride_or_default none t2.shape ≠ t2.stride then some t2.stride else none)
                  (if _storage_offset_or_default none ≠ t2.storage_offset then some t2.storage_offset else none)
                  (if _dtype_or_default none ≠ t2.dtype then some t2.dtype else none)
                  t2.metadata],
            storage_counter := 1, seen_storages := [(t1.storage.sid, 0)],
            store := storeAfterOf none t1.storage }, ?_, ?_, ?_, ?_⟩
  · simp only [writeTwoTensors, writer_first_tensor, h2]
    rfl
  · simp [Instr.isStorage]
  · exact ⟨_, _, _, _, _, _, _, _, _, rfl⟩
  · refine ⟨InputReader.tensor
        { sid := 0,
          data := randBytes (t1.storage.nbytes / (_dtype_or_default
            (if _dtype_or_default none ≠ _dtype_or_default (some t1.dtype) then some t1.dtype else none)).itemsize *
            (_dtype_or_default
            (if _dtype_or_default none ≠ _dtype_or_default (some t1.dtype) then some t1.dtype else none)).itemsize),
          device := _device_or_default
            (if _device_or_default none ≠ t1.storage.device then some t1.storage.device else none) }
        t1.shape
        (if _stride_or_default none t1.shape ≠ t1.stride then some t1.stride else none)
        (if _storage_offset_or_default none ≠ t1.storage_offset then some t1.storage_offset else none)
        (if _dtype_or_default none ≠ t1.dtype then some t1.dtype else none)
        t1.metadata,
      InputReader.tensor
        { sid := 0,
          data := randBytes (t1.storage.nbytes / (_dtype_or_default
            (if _dtype_or_default none ≠ _dtype_or_default (some t1.dtype) then some t1.dtype else none)).itemsize *
            (_dtype_or_default
            (if _dtype_or_default none ≠ _dtype_or_default (some t1.dtype) then some t1.dtype else none)).itemsize),
          device := _device_or_default
            (if _device_or_default none ≠ t1.storage.device then some t1.storage.device else none) }
        t2.shape
        (if _stride_or_default none t2.shape ≠ t2.stride then some t2.stride else none)
        (if _storage_offset_or_default none ≠ t2.storage_offset then some t2.storage_offset else none)
        (if _dtype_or_default none ≠ t2.dtype then some t2.dtype else none)
        t2.metadata,
      ["could not load, generating random data instead"], ?_, rfl⟩
    simp [replayed, runScript, storeHashOf, storeAfterOf, envLookup, reader_storage_none]

/-- Witness for C5: two concrete views sharing `wStorage`. -/
theorem c5_storage_dedup_witness :
    wTensor2.storage = wTensor.storage ∧
    ∃ w : InputWriter,
      writeTwoTensors none wTensor wTensor2 = .ok w ∧
      (w.lines.filter Instr.isStorage).length = 1 ∧
      (∃ (hash : Option Hash) (dev : Option Device) (dth : Option DType)
         (s1 s2 : Option (List Nat)) (o1 o2 : Option Nat) (d1 d2 : Option DType),
        w.lines = [Instr.storage 0 hash wTensor.storage.nbytes dev dth,
                   Instr.tensor 0 wTensor.shape s1 o1 d1 wTensor.metadata,
                   Instr.tensor 0 wTensor2.shape s2 o2 d2 wTensor2.metadata]) ∧
      (∃ (r1 r2 : Tensor) (lg : List String),
        replayed w = .ok ([Value.tensor r1, Value.tensor r2], lg) ∧
        r1.storage = r2.storage) :=
  ⟨rfl, c5_storage_dedup wTensor wTensor2 rfl⟩

/-- Claim C6: a written tensor's script lines spell an attribute out exactly
when it differs from its canonical default (row-major contiguous stride,
float32 dtype, cpu device, zero storage offset), and a reader given a line
with the attribute omitted reconstructs exactly that default. -/
theorem c6_default_omission (t : Tensor) (store : Option ContentStore) :
    (∃ (hash : Option Hash) (dev : Option Device) (dth dty : Option DType)
       (str : Option (List Nat)) (off : Option Nat) (w : InputWriter),
      writeOneTensor store t = .ok w ∧
      w.lines = [Instr.storage 0 hash t.storage.nbytes dev dth,
                 Instr.tensor 0 t.shape str off dty t.metadata] ∧
      (dev = none ↔ t.storage.device = _device_or_default none) ∧
      (∀ d, dev = some d → d = t.storage.device) ∧
      (str = none ↔ t.stride = _stride_or_default none t.shape) ∧
      (∀ s, str = some s → s = t.stride) ∧
      (off = none ↔ t.storage_offset = _storage_offset_or_default none) ∧
      (∀ o, off = some o → o = t.storage_offset) ∧
      (dty = none ↔ t.dtype = _dtype_or_default none) ∧
      (∀ d, dty = some d → d = t.dtype) ∧
      (dth = none ↔ t.dtype = _dtype_or_default none) ∧
      (∀ d, dth = some d → d = t.dtype)) ∧
    (∀ (s : UntypedStorage) (shape : List Nat) (md : List String),
      InputReader.tensor s shape none none none md =
        { storage := s, shape := shape, stride := make_contiguous_strides_for shape,
          storage_offset := 0, dtype := DType.float32, metadata := md }) ∧
    _device_or_default none = Device.cpu ∧ _dtype_or_default none = DType.float32 ∧
    _storage_offset_or_default none = 0 := by
  refine ⟨⟨storeHashOf store t.storage,
    (if _device_or_default none ≠ t.storage.device then some t.storage.device else none),
    (if _dtype_or_default none ≠ _dtype_or_default (some t.dtype) then some t.dtype else none),
    (if _dtype_or_default none ≠ t.dtype then some t.dtype else none),
    (if _stride_or_default none t.shape ≠ t.stride then some t.stride else none),
    (if _storage_offset_or_default none ≠ t.storage_offset then some t.storage_offset else none),
    _, writer_first_tensor store ("arg0") t, rfl,
    emit_none_iff _ _, fun d hd => emit_some_val _ _ d hd,
    emit_none_iff _ _, fun s hs => emit_some_val _ _ s hs,
    emit_none_iff _ _, fun o ho => emit_some_val _ _ o ho,
    emit_none_iff _ _, fun d hd => emit_some_val _ _ d hd,
    emit_none_iff (_dtype_or_default none) t.dtype,
    fun d hd => emit_some_val (_dtype_or_default none) t.dtype d hd⟩,
    fun s shape md => rfl, rfl, rfl, rfl⟩

/-- Witness for C6 at a concrete tensor whose attributes are all default. -/
theorem c6_default_omission_witness :
    ∃ (hash : Option Hash) (dev : Option Device) (dth dty : Option DType)
       (str : Option (List Nat)) (off : Option Nat) (w : InputWriter),
      writeOneTensor none wTensor = .ok w ∧
      w.lines = [Instr.storage 0 hash wTensor.storage.nbytes dev dth,
                 Instr.tensor 0 wTensor.shape str off dty wTensor.metadata] ∧
      (dev = none ↔ wTensor.storage.device = _device_or_default none) ∧
      (∀ d, dev = some d → d = wTensor.storage.device) ∧
      (str = none ↔ wTensor.stride = _stride_or_default none wTensor.shape) ∧
      (∀ s, str = some s → s = wTensor.stride) ∧
      (off = none ↔ wTensor.storage_offset = _storage_offset_or_default none) ∧
      (∀ o, off = some o → o = wTensor.storage_offset) ∧
      (dty = none ↔ wTensor.dtype = _dtype_or_default none) ∧
      (∀ d, dty = some d → d = wTensor.dtype) ∧
      (dth = none ↔ wTensor.dtype = _dtype_or_default none) ∧
      (∀ d, dth = some d → d = wTensor.dtype) :=
  (c6_default_omission wTensor none).1

/-- Counterexample to C1 as stated: with compile failing at level 1 under
`repro_after = aot`, an exception inside the checkpoint write propagates out
of the wrapper instead of the original error (and it is no AccuracyError
either). -/
theorem c1_counterexample :
    (compile_step c1CounterEnv).2 = some (Err.osError 28) ∧
    Err.osError 28 ≠ Err.original 3 ∧ Err.osError 28 ≠ Err.accuracyError :=
  ⟨rfl, by decide, by decide⟩

/-- Claim C1 (amended): whenever the checkpoint-persistence writes themselves
do not raise, the wrapper re-raises exactly the original error of the wrapped
compile or invocation step (or the AccuracyError at level 4), in every
configuration — including when the convenience copy inside
`dump_compiler_graph_state` fails, which is caught and logged as a warning. -/
theorem c1_capture_never_masks (env : DebugEnv)
    (hgs : env.gs_write_err = none) (hmin : env.minify_err = none) :
    (∀ e, env.compile_err = some e → (compile_step env).2 = some e) ∧
    (∀ e, env.invoke_err = some e → env.repro_level ≠ 4 →
      (deferred_for_real_inputs env).2 = .error e) ∧
    (env.repro_after = some .aot → env.repro_level = 4 → env.compiler_name = "inductor" →
      env.accuracy_fails = true → (deferred_for_real_inputs env).2 = .error .accuracyError) ∧
    (∀ e, env.repro_after = some .aot → env.repro_level = 4 → env.compiler_name = "inductor" →
      env.accuracy_fails = false → env.invoke_err = some e →
      (deferred_for_real_inputs env).2 = .error e) ∧
    (∀ c, dump_compiler_graph_state none (some c) =
      (["Writing checkpoint with nodes", "No write permissions for repro.py"], none)) := by
  refine ⟨?_, ?_, ?_, ?_, fun c => rfl⟩
  · intro e he
    cases hc : env.gs_copy_oserr <;>
      by_cases ha : env.repro_after = some ReproAfter.aot <;>
        by_cases h1 : env.repro_level = 1 <;>
          by_cases h2 : env.repro_level = 2 <;>
            simp [compile_step, he, hgs, hmin, hc, ha, h1, h2,
              dump_compiler_graph_state, dump_to_minify]
  · intro e he h4
    by_cases ha : env.repro_after = some ReproAfter.aot
    · cases hc : env.gs_copy_oserr <;>
        by_cases h3 : env.repro_level = 3 <;>
          by_cases h1 : env.repro_level = 1 <;>
            by_cases h2 : env.repro_level = 2 <;>
              simp [deferred_for_real_inputs, inner_debug_fn, ha, he, hgs, hmin, hc,
                h1, h2, h3, h4, dump_compiler_graph_state, dump_to_minify]
    · simp [deferred_for_real_inputs, ha, he]
  · intro ha h4 hname hacc
    cases hc : env.gs_copy_oserr <;>
      simp [deferred_for_real_inputs, inner_debug_fn, ha, h4, hname, hacc, hgs, hmin, hc,
        dump_compiler_graph_state, dump_to_minify]
  · intro e ha h4 hname hacc he
    simp [deferred_for_real_inputs, inner_debug_fn, ha, h4, hname, hacc, he]

/-- Witness for C1 at a configuration whose checkpoint write succeeds while
the convenience copy fails with an `OSError`. -/
theorem c1_capture_never_masks_witness :
    c1WitnessEnv.gs_write_err = none ∧ c1WitnessEnv.minify_err = none ∧
    (compile_step c1WitnessEnv).2 = some (Err.original 3) :=
  ⟨rfl, rfl, (c1_capture_never_masks c1WitnessEnv rfl rfl).1 (Err.original 3) rfl⟩

/-- Claim C8: at level 4, a non-inductor backend makes the deferred invoker
raise the unsupported-configuration error (whatever the accuracy and
invocation outcomes would have been); with the inductor backend, an accuracy
failure raises the AccuracyError after the dumps, and accuracy success returns
the compiled callable's result (or propagates its exception). -/
theorem c8_accuracy_mode (env : DebugEnv) (h4 : env.repro_level = 4) :
    (env.compiler_name ≠ "inductor" → inner_debug_fn env = ([], .error .notImplementedError)) ∧
    (env.compiler_name = "inductor" → env.accuracy_fails = true → env.gs_write_err = none →
      env.minify_err = none → (inner_debug_fn env).2 = .error .accuracyError) ∧
    (env.compiler_name = "inductor" → env.accuracy_fails = false →
      (inner_debug_fn env).2 = (match env.invoke_err with
        | none => .ok env.invoke_out
        | some e => .error e)) := by
  refine ⟨?_, ?_, ?_⟩
  · intro hname
    simp [inner_debug_fn, h4, hname]
  · intro hname hacc hgw hme
    cases hc : env.gs_copy_oserr <;>
      simp [inner_debug_fn, h4, hname, hacc, hgw, hme, hc,
        dump_compiler_graph_state, dump_to_minify]
  · intro hname hacc
    cases hi : env.invoke_err <;> simp [inner_debug_fn, h4, hname, hacc, hi]

/-- Witness for C8 at a level-4 environment naming a non-inductor backend. -/
theorem c8_accuracy_mode_witness :
    c8WitnessEnv.repro_level = 4 ∧ c8WitnessEnv.compiler_name ≠ "inductor" ∧
    inner_debug_fn c8WitnessEnv = ([], .error .notImplementedError) :=
  ⟨rfl, by decide, (c8_accuracy_mode c8WitnessEnv rfl).1 (by decide)⟩

theorem run_node_check_eq (known : List String) (tol : ℚ) (ind f64 : String → FTensor)
    (n : ANode) :
    run_node_check known tol ind f64 n =
      if divergesAt known tol ind f64 n then
        [divergeMsg tol n (ind n.name) (f64 n.name)]
      else [] := by
  unfold run_node_check divergesAt
  by_cases hk : n.name ∈ known
  · by_cases hs : same n.eager (ind n.name) (f64 n.name) tol <;> simp [hk, hs]
  · simp [hk]

/-- Claim C3: the divergence pass reports nodes in emission order, so its
first report is exactly the first node with recorded traces whose original
value disagrees with one of the stored strategies beyond tolerance; in an
A-B-C chain where only C disagrees, C alone is reported; NaN compares equal to
NaN. -/
theorem c3_divergence_localization (known : List String) (tol : ℚ)
    (ind f64 : String → FTensor) :
    (∀ nodes : List ANode,
      (check_divergence known tol ind f64 nodes).head? =
        (nodes.find? (divergesAt known tol ind f64)).map
          (fun n => divergeMsg tol n (ind n.name) (f64 n.name))) ∧
    (∀ a b c : ANode,
      divergesAt known tol ind f64 a = false →
      divergesAt known tol ind f64 b = false →
      divergesAt known tol ind f64 c = true →
      check_divergence known tol ind f64 [a, b, c] =
        [divergeMsg tol c (ind c.name) (f64 c.name)]) ∧
    closeVal tol .nan .nan = true := by
  refine ⟨?_, ?_, rfl⟩
  · intro nodes
    induction nodes with
    | nil => rfl
    | cons n rest ih =>
      rw [check_divergence, run_node_check_eq]
      by_cases hd : divergesAt known tol ind f64 n
      · rw [if_pos hd, List.find?_cons_of_pos _ hd]
        rfl
      · rw [if_neg hd, List.find?_cons_of_neg _ (by simpa using hd)]
        simpa using ih
  · intro a b c ha hb hc
    simp [check_divergence, run_node_check_eq, ha, hb, hc]

/-- Witness for C3 at a three-node chain where only the last node's values
disagree. -/
theorem c3_divergence_localization_witness :
    divergesAt witKnown 0 witTrace witTrace nodeA = false ∧
    divergesAt witKnown 0 witTrace witTrace nodeB = false ∧
    divergesAt witKnown 0 witTrace witTrace nodeC = true ∧
    check_divergence witKnown 0 witTrace witTrace [nodeA, nodeB, nodeC] =
      [divergeMsg 0 nodeC (witTrace nodeC.name) (witTrace nodeC.name)] := by
  have ha : divergesAt witKnown 0 witTrace witTrace nodeA = false := by
    norm_num [divergesAt, witKnown, witTrace, nodeA, same, closeTensor, closeVal]
  have hb : divergesAt witKnown 0 witTrace witTrace nodeB = false := by
    norm_num [divergesAt, witKnown, witTrace, nodeB, same, closeTensor, closeVal]
  have hc : divergesAt witKnown 0 witTrace witTrace nodeC = true := by
    norm_num [divergesAt, witKnown, witTrace, nodeC, same, closeTensor, closeVal]
  exact ⟨ha, hb, hc,
    (c3_divergence_localization witKnown 0 witTrace witTrace).2.1 nodeA nodeB nodeC ha hb hc⟩

theorem compare_tuples4_none_iff (a1 b1 c1 d1 a2 b2 c2 d2 : MetaVal) :
    compare_tuples [a1, b1, c1, d1] [a2, b2, c2, d2] = none ↔
      a1 = a2 ∧ b1 = b2 ∧ c1 = c2 ∧ d1 = d2 := by
  unfold compare_tuples
  rw [show (List.range ([a1, b1, c1, d1] : List MetaVal).length) = [0, 1, 2, 3] from rfl]
  by_cases h1 : a1 = a2 <;> by_cases h2 : b1 = b2 <;> by_cases h3 : c1 = c2 <;>
    by_cases h4 : d1 = d2 <;>
      simp [h1, h2, h3, h4]

theorem check_hook_nil_iff (stored : String → List MetaVal) (name : String) (val : Tensor) :
    check_hook stored name val = [] ↔
      compare_tuples (compute_tensor_metadata val) (stored name) = none := by
  unfold check_hook
  cases hcmp : compare_tuples (compute_tensor_metadata val) (stored name) <;> simp [hcmp]

/-- Claim C4: the determinism re-run compares only structural metadata —
`compute_tensor_metadata` is content-blind, the hook fires exactly when the
metadata tuples differ, and a changed output shape on the second run is
reported with the nondeterminism message (distinct from the divergence
message format), with no content comparison involved. -/
theorem c4_determinism_metadata_only (t1 t2 : Tensor) (name : String)
    (stored : String → List MetaVal) :
    (t1.shape = t2.shape → t1.stride = t2.stride → t1.dtype = t2.dtype →
      t1.storage.device = t2.storage.device →
      compute_tensor_metadata t1 = compute_tensor_metadata t2) ∧
    (check_hook (fun _ => compute_tensor_metadata t1) name t2 = [] ↔
      compute_tensor_metadata t2 = compute_tensor_metadata t1) ∧
    (t1.shape ≠ t2.shape →
      ∃ reason, check_hook (fun _ => compute_tensor_metadata t1) name t2 =
        ["NONDETERMINISTIC INDUCTOR at " ++ name ++ " (" ++ reason ++ ")"]) ∧
    check_determinism stored [(name, t2)] = check_hook stored name t2 := by
  refine ⟨?_, ?_, ?_, ?_⟩
  · intro h1 h2 h3 h4
    simp [compute_tensor_metadata, h1, h2, h3, h4]
  · rw [check_hook_nil_iff]
    simp [compute_tensor_metadata, compare_tuples4_none_iff]
  · intro hsh
    have hne : ¬ (compare_tuples (compute_tensor_metadata t2) (compute_tensor_metadata t1) = none) := by
      simp only [compute_tensor_metadata, compare_tuples4_none_iff, MetaVal.shapeV.injEq,
        MetaVal.strideV.injEq, MetaVal.dtypeV.injEq, MetaVal.deviceV.injEq]
      intro hcon
      exact hsh hcon.1.symm
    cases hcmp : compare_tuples (compute_tensor_metadata t2) (compute_tensor_metadata t1) with
    | none => exact absurd hcmp hne
    | some r => exact ⟨r, by simp [check_hook, hcmp]⟩
  · simp [check_determinism]

/-- Witness for C4: a content-only change produces no report, while a shape
change is reported as nondeterministic. -/
theorem c4_determinism_metadata_only_witness :
    (wTensor.shape = wTensorOtherData.shape ∧ wTensor.stride = wTensorOtherData.stride ∧
      wTensor.dtype = wTensorOtherData.dtype ∧
      wTensor.storage.device = wTensorOtherData.storage.device) ∧
    compute_tensor_metadata wTensor = compute_tensor_metadata wTensorOtherData ∧
    wTensor.shape ≠ wTensorOtherShape.shape ∧
    (∃ reason, check_hook (fun _ => compute_tensor_metadata wTensor) ("n") wTensorOtherShape =
      ["NONDETERMINISTIC INDUCTOR at " ++ ("n") ++ " (" ++ reason ++ ")"]) :=
  ⟨⟨rfl, rfl, rfl, rfl⟩,
    (c4_determinism_metadata_only wTensor wTensorOtherData ("n") (fun _ => [])).1 rfl rfl rfl rfl,
    by decide,
    (c4_determinism_metadata_only wTensor wTensorOtherShape ("n") (fun _ => [])).2.2.1 (by decide)⟩

end AfterAot
